import Mathlib

/-!
Shallow embedding of the `monitor-tanques` tank-monitoring service
(Go repository `victorcel/monitor-tanques`).

Modelling conventions:
* Go `float64` fields (capacity, levels, temperatures, thresholds,
  percentages) are modelled as `ℚ`.
* Go `time.Time` is modelled as `Int` (ticks); the integer `0` plays the role
  of the zero `time.Time` tested by `IsZero`, and each call of `time.Now()`
  is an explicit `now : Int` parameter of the operation performing it.
* Go pointer arguments that the code nil-checks (`*domain.Tank`,
  `*domain.Measurement` service inputs) are modelled as `Option` inputs at
  the service boundary; past the nil check the code treats them as values.
* The mutable state of the two in-memory repositories plus the record of
  notifier invocations is folded into one explicit state record `SysState`
  that every operation threads.  The alert notifier (`AlertNotifier.SendAlert`)
  is modelled as appending the `(tankID, message)` pair to `SysState.alerts`
  and returning a behaviour parameter `nerr : Option Err`: the mock notifier
  of the test suite returns `nil` (`none`); a failing notifier returns an
  error (`some e`).
* `sort.Slice` with the `Timestamp.After` comparator is modelled as
  `List.insertionSort` by the reflexive descending-timestamp relation; the
  relative order of equal timestamps is implementation-defined in the source
  (`sort.Slice` is unstable) and the model fixes one such order.
* `fmt.Sprintf "%.2f%%"` is abstracted by `sprintfPct`: the two-decimal
  rendering is modelled as the rounded number of hundredths.  No claim
  depends on the exact digit string, only on the message being a function of
  the tank state.
-/

namespace MonitorTanques

/-- Go struct `domain.Tank` (`internal/core/domain`, listed in the README). -/
structure Tank where
  id : String
  name : String
  capacity : ℚ
  currentLevel : ℚ
  liquidType : String
  temperature : ℚ
  lastUpdated : Int
  status : String
  alertThreshold : ℚ
deriving DecidableEq

/-- Go struct `domain.Measurement`. -/
structure Measurement where
  id : String
  tankID : String
  level : ℚ
  timestamp : Int
  temperature : ℚ
deriving DecidableEq

/-- Go method `Tank.GetLevelPercentage`: zero for non-positive capacity,
otherwise `CurrentLevel / Capacity * 100`. -/
def Tank.getLevelPercentage (t : Tank) : ℚ :=
  if t.capacity ≤ 0 then 0 else t.currentLevel / t.capacity * 100

/-- Go method `Tank.IsLevelCritical`: percentage at or below the threshold. -/
def Tank.isLevelCritical (t : Tank) : Bool :=
  decide (t.getLevelPercentage ≤ t.alertThreshold)

/-- Go method `Tank.UpdateStatus`, as a pure function returning the updated
tank: `critical` when `percentage <= AlertThreshold`, else `warning` when
`percentage <= AlertThreshold*2`, else `normal`. -/
def Tank.updateStatus (t : Tank) : Tank :=
  let percentage := t.getLevelPercentage
  if percentage ≤ t.alertThreshold then { t with status := "critical" }
  else if percentage ≤ t.alertThreshold * 2 then { t with status := "warning" }
  else { t with status := "normal" }

/-- The distinct error values the embedded code can produce.  Each
constructor names one `error` value of the Go source. -/
inductive Err where
  /-- Error value `services.ErrTankNotFound` ("tank not found"). -/
  | tankNotFound
  /-- Error value `services.ErrInvalidTank` ("invalid tank data"). -/
  | invalidTank
  /-- The `errors.New("invalid measurement data")` error of
  `TankServiceImpl.AddMeasurement`. -/
  | invalidMeasurement
  /-- Error value `repositories.ErrTankNotFound` ("tank not found"), a value
  distinct from the service-level one but of the same NotFound kind. -/
  | repoTankNotFound
  /-- The `errors.New("tank ID cannot be empty")` error of the in-memory
  measurement repository. -/
  | emptyTankID
  /-- A delivery failure returned by an `AlertNotifier` implementation. -/
  | alertFailed
deriving DecidableEq

/-- Classification of the error taxonomy: which error values are of the
NotFound kind (both the service-level and the repository-level
"tank not found" values). -/
def Err.isNotFound : Err → Bool
  | .tankNotFound => true
  | .repoTankNotFound => true
  | _ => false

/-- The combined mutable state: the tank map of `MemoryTankRepository`
(`map[string]*domain.Tank`, modelled as a function to `Option Tank`), the
per-tank measurement slices of `MemoryMeasurementRepository`
(`map[string][]*domain.Measurement`, a missing key and an empty slice are
observationally the same and are both modelled by `[]`), and the list of
notifier invocations `(tankID, message)` in call order. -/
structure SysState where
  tanks : String → Option Tank
  measurements : String → List Measurement
  alerts : List (String × String)

/-- The state produced by `NewMemoryTankRepository` and
`NewMemoryMeasurementRepository` with no notifier call yet. -/
def emptyState : SysState :=
  { tanks := fun _ => none, measurements := fun _ => [], alerts := [] }

namespace MemoryTankRepository

/-- Go method `MemoryTankRepository.GetTank`: look the id up in the map,
`ErrTankNotFound` when absent, otherwise a copy of the stored tank. -/
def GetTank (s : SysState) (id : String) : Except Err Tank :=
  match s.tanks id with
  | none => .error .repoTankNotFound
  | some tank => .ok tank

/-- Go method `MemoryTankRepository.SaveTank` (the nil guard lives at the
service boundary where the pointer is an `Option`): default a zero
`LastUpdated` to now, then store a copy keyed by `tank.ID`. -/
def SaveTank (s : SysState) (now : Int) (tank : Tank) : SysState :=
  let tank := if tank.lastUpdated = 0 then { tank with lastUpdated := now } else tank
  { s with tanks := fun id => if id = tank.id then some tank else s.tanks id }

/-- Go method `MemoryTankRepository.UpdateTank`: `ErrTankNotFound` when the
key is absent, otherwise default a zero `LastUpdated` to now and overwrite
the stored copy. -/
def UpdateTank (s : SysState) (now : Int) (tank : Tank) : Except Err SysState :=
  match s.tanks tank.id with
  | none => .error .repoTankNotFound
  | some _ =>
    let tank := if tank.lastUpdated = 0 then { tank with lastUpdated := now } else tank
    .ok { s with tanks := fun id => if id = tank.id then some tank else s.tanks id }

/-- Go method `MemoryTankRepository.DeleteTank`: `ErrTankNotFound` when the
key is absent, otherwise remove the entry. -/
def DeleteTank (s : SysState) (id : String) : Except Err SysState :=
  match s.tanks id with
  | none => .error .repoTankNotFound
  | some _ => .ok { s with tanks := fun i => if i = id then none else s.tanks i }

end MemoryTankRepository

/-- The ordering used by the measurement repository's `sort.Slice` call:
`a` comes before `b` when `b`'s timestamp is at most `a`'s (most recent
first; the source compares with `Timestamp.After`, and ties are
implementation-defined there). -/
def recentFirst (a b : Measurement) : Prop := b.timestamp ≤ a.timestamp

instance : DecidableRel recentFirst :=
  fun a b => inferInstanceAs (Decidable (b.timestamp ≤ a.timestamp))

instance : IsTotal Measurement recentFirst :=
  ⟨fun a b => le_total b.timestamp a.timestamp⟩

instance : IsTrans Measurement recentFirst :=
  ⟨fun _ _ _ h1 h2 => le_trans h2 h1⟩

/-- The `sort.Slice(..., Timestamp.After ...)` call of `SaveMeasurement`:
sort a measurement slice most-recent-first. -/
def sortByTimestampDesc (l : List Measurement) : List Measurement :=
  List.insertionSort recentFirst l

namespace MemoryMeasurementRepository

/-- Go method `MemoryMeasurementRepository.SaveMeasurement` (nil guard at the
service boundary): default a zero timestamp to now, append a copy to the
slice of its tank, and re-sort that slice most-recent-first. -/
def SaveMeasurement (s : SysState) (now : Int) (measurement : Measurement) : SysState :=
  let measurement :=
    if measurement.timestamp = 0 then { measurement with timestamp := now } else measurement
  { s with measurements := fun id =>
      if id = measurement.tankID
      then sortByTimestampDesc (s.measurements measurement.tankID ++ [measurement])
      else s.measurements id }

/-- Go method `MemoryMeasurementRepository.GetMeasurementsByTankID`: error on
an empty tank id; otherwise the stored slice, truncated to `limit` elements
when `0 < limit < length` and returned whole otherwise. -/
def GetMeasurementsByTankID (s : SysState) (tankID : String) (limit : Int) :
    Except Err (List Measurement) :=
  if tankID = "" then .error .emptyTankID
  else
    let measurements := s.measurements tankID
    if 0 < limit ∧ limit < (measurements.length : Int)
    then .ok (measurements.take limit.toNat)
    else .ok measurements

/-- Go method `MemoryMeasurementRepository.GetLastMeasurement`: error on an
empty tank id; `nil` for an absent or empty history, otherwise the head of
the slice (the slice is kept most-recent-first). -/
def GetLastMeasurement (s : SysState) (tankID : String) : Except Err (Option Measurement) :=
  if tankID = "" then .error .emptyTankID
  else .ok (s.measurements tankID).head?

end MemoryMeasurementRepository

/-- The `AlertNotifier.SendAlert` port: record the invocation and return the
behaviour parameter `nerr` (the mock notifier of the tests records the call
and returns `nil`). -/
def sendAlert (s : SysState) (nerr : Option Err) (tankID message : String) :
    SysState × Option Err :=
  ({ s with alerts := s.alerts ++ [(tankID, message)] }, nerr)

/-- Abstraction of `fmt.Sprintf "%.2f%%"`: the two-decimal rendering of a
percentage, modelled as its rounded number of hundredths. -/
def sprintfPct (q : ℚ) : String := toString (round (q * 100)) ++ "%"

/-- The alert message built by `TankServiceImpl.MonitorTank` for a critical
tank (with the float formatting abstracted by `sprintfPct`). -/
def criticalAlertMessage (tank : Tank) : String :=
  "¡Alerta! El tanque " ++ tank.name ++ " está en nivel crítico (" ++
    "nivel: " ++ sprintfPct tank.getLevelPercentage ++ "). " ++
    "Se requiere atención inmediata."

namespace TankServiceImpl

/-- Go method `TankServiceImpl.GetTank`: `ErrInvalidTank` for an empty id;
repository errors are propagated; on success, when the latest-measurement
lookup yields a measurement (no error, non-nil) its level, temperature and
timestamp overlay the stored snapshot and `UpdateStatus` runs; otherwise the
stored snapshot is returned as is.  (The Go `tank == nil` branch after a
nil repository error cannot arise with the in-memory repository, which never
returns a nil tank without an error.) -/
def GetTank (s : SysState) (id : String) : Except Err Tank :=
  if id = "" then .error Err.invalidTank
  else
    match MemoryTankRepository.GetTank s id with
    | .error e => .error e
    | .ok tank =>
      match MemoryMeasurementRepository.GetLastMeasurement s id with
      | .ok (some lastMeasurement) =>
        .ok (Tank.updateStatus { tank with
          currentLevel := lastMeasurement.level,
          temperature := lastMeasurement.temperature,
          lastUpdated := lastMeasurement.timestamp })
      | _ => .ok tank

/-- Go method `TankServiceImpl.CreateTank`: `ErrInvalidTank` when the tank is
nil, its name empty or its capacity non-positive; otherwise force the status
to `normal`, default a non-positive alert threshold to `10.0`, stamp
`LastUpdated` with now and persist through `SaveTank`. -/
def CreateTank (s : SysState) (now : Int) (tank? : Option Tank) : Except Err SysState :=
  match tank? with
  | none => .error Err.invalidTank
  | some tank =>
    if tank.name = "" ∨ tank.capacity ≤ 0 then .error Err.invalidTank
    else
      let tank : Tank := { tank with status := "normal" }
      let tank : Tank :=
        if tank.alertThreshold ≤ 0 then { tank with alertThreshold := 10 } else tank
      let tank : Tank := { tank with lastUpdated := now }
      .ok (MemoryTankRepository.SaveTank s now tank)

/-- Go method `TankServiceImpl.UpdateTank`: `ErrInvalidTank` when the tank is
nil or its id empty; existence check through the repository; then
`UpdateStatus`, stamp `LastUpdated` with now and persist through the
repository's `UpdateTank`. -/
def UpdateTank (s : SysState) (now : Int) (tank? : Option Tank) : Except Err SysState :=
  match tank? with
  | none => .error Err.invalidTank
  | some tank =>
    if tank.id = "" then .error Err.invalidTank
    else
      match MemoryTankRepository.GetTank s tank.id with
      | .error e => .error e
      | .ok _ =>
        let tank := Tank.updateStatus tank
        let tank := { tank with lastUpdated := now }
        MemoryTankRepository.UpdateTank s now tank

/-- Go method `TankServiceImpl.DeleteTank`: `ErrInvalidTank` for an empty id;
existence check through the repository (whose NotFound error is propagated);
then delete through the repository. -/
def DeleteTank (s : SysState) (id : String) : Except Err SysState :=
  if id = "" then .error Err.invalidTank
  else
    match MemoryTankRepository.GetTank s id with
    | .error e => .error e
    | .ok _ => MemoryTankRepository.DeleteTank s id

/-- Go method `TankServiceImpl.MonitorTank`: read the tank through the
service-level `GetTank` (so the latest measurement is overlaid), and when
`IsLevelCritical` holds send one alert through the notifier, returning the
notifier's outcome; otherwise return `nil` with no notifier call. -/
def MonitorTank (s : SysState) (nerr : Option Err) (tankID : String) :
    SysState × Option Err :=
  match GetTank s tankID with
  | .error e => (s, some e)
  | .ok tank =>
    if tank.isLevelCritical then
      sendAlert s nerr tankID (criticalAlertMessage tank)
    else (s, none)

/-- Go method `TankServiceImpl.AddMeasurement`: "invalid measurement data"
when the measurement is nil, its tank id empty or its level negative; the
referenced tank is fetched (repository NotFound propagated); a zero
timestamp is defaulted to now; the measurement is persisted; the tank's
level, temperature and `LastUpdated` are taken from the measurement,
`UpdateStatus` runs and the tank is persisted; finally `MonitorTank` runs on
the updated state.  (The in-memory `SaveMeasurement` can only fail on a nil
measurement, which the guard above already excluded, so its error branch is
unreachable here.) -/
def AddMeasurement (s : SysState) (now : Int) (nerr : Option Err)
    (measurement? : Option Measurement) : SysState × Option Err :=
  match measurement? with
  | none => (s, some Err.invalidMeasurement)
  | some measurement =>
    if measurement.tankID = "" ∨ measurement.level < 0 then (s, some Err.invalidMeasurement)
    else
      match MemoryTankRepository.GetTank s measurement.tankID with
      | .error e => (s, some e)
      | .ok tank =>
        let measurement :=
          if measurement.timestamp = 0 then { measurement with timestamp := now } else measurement
        let s := MemoryMeasurementRepository.SaveMeasurement s now measurement
        let tank := Tank.updateStatus { tank with
          currentLevel := measurement.level,
          temperature := measurement.temperature,
          lastUpdated := measurement.timestamp }
        match MemoryTankRepository.UpdateTank s now tank with
        | .error e => (s, some e)
        | .ok s => MonitorTank s nerr measurement.tankID

/-- Go method `TankServiceImpl.GetTankStatus`: the status field of the
projected tank returned by the service-level `GetTank`. -/
def GetTankStatus (s : SysState) (id : String) : Except Err String :=
  match GetTank s id with
  | .error e => .error e
  | .ok tank => .ok tank.status

end TankServiceImpl

/-- The timestamp defaulting step of `AddMeasurement`
(`if measurement.Timestamp.IsZero() ... = time.Now()`). -/
def measurementStamped (now : Int) (m : Measurement) : Measurement :=
  if m.timestamp = 0 then { m with timestamp := now } else m

/-- The tank snapshot `AddMeasurement` persists: level, temperature and
`LastUpdated` taken from the (stamped) measurement, then `UpdateStatus`. -/
def tankAfterMeasurement (m : Measurement) (t : Tank) : Tank :=
  Tank.updateStatus { t with
    currentLevel := m.level,
    temperature := m.temperature,
    lastUpdated := m.timestamp }

/-- The intermediate state of a successful `AddMeasurement` run after its two
repository writes (measurement persisted, tank snapshot persisted) and
before `MonitorTank` is invoked. -/
def postWriteState (s : SysState) (now : Int) (m : Measurement) (t : Tank) : SysState :=
  let m := measurementStamped now m
  let s1 := MemoryMeasurementRepository.SaveMeasurement s now m
  match MemoryTankRepository.UpdateTank s1 now (tankAfterMeasurement m t) with
  | .ok s2 => s2
  | .error _ => s1

/-- A measurement list is ordered most-recent-first. -/
def sortedDescTS (l : List Measurement) : Prop := List.Sorted recentFirst l

/-- The tank stored by the `UpdateTank` call inside `AddMeasurement` (the
repository re-defaults a zero `LastUpdated`, which can only fire when the
stamped timestamp is itself zero, i.e. when `now = 0`). -/
def storedTankAfterMeasurement (now : Int) (m : Measurement) (t : Tank) : Tank :=
  let t' := tankAfterMeasurement (measurementStamped now m) t
  if t'.lastUpdated = 0 then { t' with lastUpdated := now } else t'

/-- The state reached from `emptyState` by a sequence of `SaveMeasurement`
calls (each call performing `time.Now()` at the same tick `now`; only the
defaulting of zero timestamps depends on it). -/
def runSaves (now : Int) (ms : List Measurement) : SysState :=
  ms.foldl (fun s m => MemoryMeasurementRepository.SaveMeasurement s now m) emptyState

/-! Concrete fixtures used by counterexamples and witnesses (values taken
from the repository's test suite and the spec's scenarios). -/

/-- The tank of `createTestTank` in the test suite: capacity 1000, level 500,
threshold 10 (fill percentage 50, `normal`). -/
def tankA : Tank :=
  { id := "t1", name := "Tanque de Prueba", capacity := 1000, currentLevel := 500,
    liquidType := "Agua", temperature := 25, lastUpdated := 1, status := "normal",
    alertThreshold := 10 }

/-- A tank sitting exactly at twice its threshold: fill percentage 20 with
threshold 10. -/
def boundaryTank : Tank :=
  { id := "tw", name := "Borde", capacity := 100, currentLevel := 20,
    liquidType := "Agua", temperature := 20, lastUpdated := 1, status := "normal",
    alertThreshold := 10 }

/-- A state holding exactly `tankA` under key "t1" and no measurements. -/
def stateWithTank : SysState :=
  { tanks := fun i => if i = "t1" then some tankA else none,
    measurements := fun _ => [], alerts := [] }

/-- Scenario E's measurement: level -5. -/
def measNeg : Measurement :=
  { id := "mneg", tankID := "t1", level := -5, timestamp := 2, temperature := 25 }

/-- A tank created well inside the critical band: capacity 1000, level 50,
threshold 10 (fill percentage 5). -/
def lowTank : Tank :=
  { id := "tl", name := "Bajo", capacity := 1000, currentLevel := 50,
    liquidType := "Agua", temperature := 25, lastUpdated := 0, status := "",
    alertThreshold := 10 }

/-- The snapshot `CreateTank` persisted for `lowTank`: status forced to
`normal`, `LastUpdated` stamped with 5. -/
def staleLow : Tank := { lowTank with status := "normal", lastUpdated := 5 }

/-- The state after `CreateTank` of `lowTank` at tick 5 (no measurements). -/
def createdLowState : SysState :=
  { tanks := fun i => if i = "tl" then some staleLow else none,
    measurements := fun _ => [], alerts := [] }

/-- A measurement of level 300 at tick 7 for tank "t1" (Scenario C). -/
def meas300 : Measurement :=
  { id := "m3", tankID := "t1", level := 300, timestamp := 7, temperature := 22 }

/-- `stateWithTank` with `meas300` already in tank "t1"'s history. -/
def stateWithMeas : SysState :=
  { tanks := fun i => if i = "t1" then some tankA else none,
    measurements := fun i => if i = "t1" then [meas300] else [], alerts := [] }

/-- The projected tank `GetTank stateWithMeas "t1"` returns: `tankA` overlaid
with `meas300` (fill percentage 30, status `normal`). -/
def projTank : Tank := { tankA with currentLevel := 300, temperature := 22, lastUpdated := 7 }

/-- A tank whose latest stored measurement (timestamp 10, level 50 of 100) is
not critical. -/
def backTank : Tank :=
  { id := "tb", name := "Retro", capacity := 100, currentLevel := 50,
    liquidType := "Agua", temperature := 20, lastUpdated := 10, status := "normal",
    alertThreshold := 10 }

/-- The measurement already stored for `backTank`: timestamp 10, level 50. -/
def measOld : Measurement :=
  { id := "m1", tankID := "tb", level := 50, timestamp := 10, temperature := 20 }

/-- A back-dated measurement for `backTank`: timestamp 5 (older than
`measOld`), level 5, yielding a fill percentage of 5% ≤ threshold 10. -/
def measBack : Measurement :=
  { id := "m2", tankID := "tb", level := 5, timestamp := 5, temperature := 20 }

/-- The state holding `backTank` and the history `[measOld]`. -/
def backState : SysState :=
  { tanks := fun i => if i = "tb" then some backTank else none,
    measurements := fun i => if i = "tb" then [measOld] else [], alerts := [] }

/-- Scenario B's tank: capacity 1000, level 500, threshold 10, no
measurements yet, stored under key "tc". -/
def tankC : Tank :=
  { id := "tc", name := "Critico", capacity := 1000, currentLevel := 500,
    liquidType := "Agua", temperature := 25, lastUpdated := 1, status := "normal",
    alertThreshold := 10 }

/-- A state holding exactly `tankC` and no measurements. -/
def critState : SysState :=
  { tanks := fun i => if i = "tc" then some tankC else none,
    measurements := fun _ => [], alerts := [] }

/-- A measurement driving `tankC` critical: level 50 of 1000 (5%) at tick 3. -/
def measCrit : Measurement :=
  { id := "mc", tankID := "tc", level := 50, timestamp := 3, temperature := 24 }

/-- The projected tank `MonitorTank` sees after `measCrit` is ingested into
`critState`. -/
def trCrit : Tank :=
  { tankC with currentLevel := 50, temperature := 24, lastUpdated := 3, status := "critical" }

/-- A valid tank handed to `CreateTank` with a non-positive alert threshold
(so creation must default it to 10.0). -/
def freshTank : Tank :=
  { id := "nf", name := "Nuevo", capacity := 200, currentLevel := 40,
    liquidType := "Agua", temperature := 20, lastUpdated := 0, status := "x",
    alertThreshold := 0 }

/-! Helper lemmas: `UpdateStatus` only touches the status field. -/

lemma updateStatus_id (t : Tank) : (Tank.updateStatus t).id = t.id := by
  simp only [Tank.updateStatus]
  split
  · rfl
  · split <;> rfl

lemma updateStatus_capacity (t : Tank) : (Tank.updateStatus t).capacity = t.capacity := by
  simp only [Tank.updateStatus]
  split
  · rfl
  · split <;> rfl

lemma updateStatus_currentLevel (t : Tank) :
    (Tank.updateStatus t).currentLevel = t.currentLevel := by
  simp only [Tank.updateStatus]
  split
  · rfl
  · split <;> rfl

lemma updateStatus_alertThreshold (t : Tank) :
    (Tank.updateStatus t).alertThreshold = t.alertThreshold := by
  simp only [Tank.updateStatus]
  split
  · rfl
  · split <;> rfl

lemma updateStatus_lastUpdated (t : Tank) :
    (Tank.updateStatus t).lastUpdated = t.lastUpdated := by
  simp only [Tank.updateStatus]
  split
  · rfl
  · split <;> rfl

lemma updateStatus_getLevelPercentage (t : Tank) :
    (Tank.updateStatus t).getLevelPercentage = t.getLevelPercentage := by
  unfold Tank.getLevelPercentage
  rw [updateStatus_capacity, updateStatus_currentLevel]

/-- The status `UpdateStatus` writes, as a three-way conditional. -/
lemma updateStatus_status (t : Tank) :
    (Tank.updateStatus t).status =
      if t.getLevelPercentage ≤ t.alertThreshold then "critical"
      else if t.getLevelPercentage ≤ t.alertThreshold * 2 then "warning"
      else "normal" := by
  simp only [Tank.updateStatus]
  split_ifs <;> rfl

/-- Exact characterisation of each status value after `UpdateStatus`. -/
lemma updateStatus_status_iff (t : Tank) :
    ((Tank.updateStatus t).status = "critical" ↔
      t.getLevelPercentage ≤ t.alertThreshold) ∧
    ((Tank.updateStatus t).status = "warning" ↔
      (t.alertThreshold < t.getLevelPercentage ∧
        t.getLevelPercentage ≤ t.alertThreshold * 2)) ∧
    ((Tank.updateStatus t).status = "normal" ↔
      (t.alertThreshold < t.getLevelPercentage ∧
        t.alertThreshold * 2 < t.getLevelPercentage)) := by
  rw [updateStatus_status]
  split_ifs with h1 h2
  · refine ⟨by simp [h1], ?_, ?_⟩
    · constructor
      · intro h; exact absurd h (by decide)
      · rintro ⟨ha, _⟩; exact absurd h1 (not_le.mpr ha)
    · constructor
      · intro h; exact absurd h (by decide)
      · rintro ⟨ha, _⟩; exact absurd h1 (not_le.mpr ha)
  · refine ⟨?_, by simp [not_le.mp h1, h2], ?_⟩
    · constructor
      · intro h; exact absurd h (by decide)
      · intro ha; exact absurd ha h1
    · constructor
      · intro h; exact absurd h (by decide)
      · rintro ⟨_, hb⟩; exact absurd h2 (not_le.mpr hb)
  · refine ⟨?_, ?_, by simp [not_le.mp h1, not_le.mp h2]⟩
    · constructor
      · intro h; exact absurd h (by decide)
      · intro ha; exact absurd ha h1
    · constructor
      · intro h; exact absurd h (by decide)
      · rintro ⟨_, hb⟩; exact absurd hb h2

/-- `updateStatus_status_iff` restated against the fields of the updated
tank itself (it never becomes stale relative to its own level). -/
lemma updateStatus_self_iff (u : Tank) :
    ((Tank.updateStatus u).status = "critical" ↔
      (Tank.updateStatus u).getLevelPercentage ≤ (Tank.updateStatus u).alertThreshold) ∧
    ((Tank.updateStatus u).status = "warning" ↔
      ((Tank.updateStatus u).alertThreshold < (Tank.updateStatus u).getLevelPercentage ∧
        (Tank.updateStatus u).getLevelPercentage ≤ (Tank.updateStatus u).alertThreshold * 2)) ∧
    ((Tank.updateStatus u).status = "normal" ↔
      ((Tank.updateStatus u).alertThreshold < (Tank.updateStatus u).getLevelPercentage ∧
        (Tank.updateStatus u).alertThreshold * 2 < (Tank.updateStatus u).getLevelPercentage)) := by
  rw [updateStatus_getLevelPercentage, updateStatus_alertThreshold]
  exact updateStatus_status_iff u

/-- C3: `UpdateStatus` implements the three-tier classification with both
boundaries inclusive: a percentage at or below the threshold (including
exactly at it) yields `critical`; a percentage above the threshold and at or
below twice the threshold (including exactly twice) yields `warning`; a
percentage above twice the threshold yields `normal`. -/
theorem updateStatus_three_tier (t : Tank) :
    (t.getLevelPercentage ≤ t.alertThreshold →
      (Tank.updateStatus t).status = "critical") ∧
    (t.alertThreshold < t.getLevelPercentage →
      t.getLevelPercentage ≤ 2 * t.alertThreshold →
      (Tank.updateStatus t).status = "warning") ∧
    (t.alertThreshold < t.getLevelPercentage →
      2 * t.alertThreshold < t.getLevelPercentage →
      (Tank.updateStatus t).status = "normal") := by
  rw [updateStatus_status]
  refine ⟨fun h1 => if_pos h1, fun h1 h2 => ?_, fun h1 h2 => ?_⟩
  · rw [if_neg (not_le.mpr h1), if_pos (by linarith)]
  · rw [if_neg (not_le.mpr h1), if_neg (not_le.mpr (by linarith))]

/-- Witness for C3 at the upper boundary: `boundaryTank` has fill percentage
exactly twice its threshold (20% with threshold 10) and is classified
`warning`. -/
theorem updateStatus_three_tier_witness :
    (Tank.updateStatus boundaryTank).status = "warning" :=
  (updateStatus_three_tier boundaryTank).2.1
    (by norm_num [boundaryTank, Tank.getLevelPercentage])
    (by norm_num [boundaryTank, Tank.getLevelPercentage])

/-- C8: `GetLevelPercentage` is total: it returns
`currentLevel / capacity * 100` for a positive capacity and `0` for a
non-positive capacity, never dividing by a non-positive divisor. -/
theorem getLevelPercentage_total (t : Tank) :
    (0 < t.capacity → t.getLevelPercentage = t.currentLevel / t.capacity * 100) ∧
    (t.capacity ≤ 0 → t.getLevelPercentage = 0) := by
  unfold Tank.getLevelPercentage
  exact ⟨fun h => if_neg (not_le.mpr h), fun h => if_pos h⟩

/-- Witness for C8 on both sides: `tankA` (capacity 1000) takes the division
branch, and a zero-capacity variant returns 0. -/
theorem getLevelPercentage_total_witness :
    Tank.getLevelPercentage tankA = tankA.currentLevel / tankA.capacity * 100 ∧
    Tank.getLevelPercentage { tankA with capacity := 0 } = 0 :=
  ⟨(getLevelPercentage_total tankA).1 (by norm_num [tankA]),
   (getLevelPercentage_total { tankA with capacity := 0 }).2 (by norm_num [tankA])⟩

/-- C6: `AddMeasurement` on a measurement with a negative level fails with
the "invalid measurement data" error and returns the state unchanged — no
write reaches the measurement repository, the tank repository or the
notifier. -/
theorem addMeasurement_negative_level (s : SysState) (now : Int) (nerr : Option Err)
    (m : Measurement) (h : m.level < 0) :
    TankServiceImpl.AddMeasurement s now nerr (some m) = (s, some Err.invalidMeasurement) := by
  simp only [TankServiceImpl.AddMeasurement]
  rw [if_pos (Or.inr h)]

/-- Witness for C6: Scenario E, level -5 against `stateWithTank`. -/
theorem addMeasurement_negative_level_witness :
    TankServiceImpl.AddMeasurement stateWithTank 2 none (some measNeg) =
      (stateWithTank, some Err.invalidMeasurement) :=
  addMeasurement_negative_level stateWithTank 2 none measNeg (by norm_num [measNeg])

/-- C4 counterexample: on the empty id, `GetTank` fails with
`ErrInvalidTank` — an InvalidInput-kind error, not a NotFound one, contrary
to the claim that both failure cases are NotFound. -/
theorem getTank_empty_id_counterexample :
    TankServiceImpl.GetTank emptyState "" = Except.error Err.invalidTank ∧
    Err.isNotFound Err.invalidTank = false := by
  constructor
  · simp [TankServiceImpl.GetTank]
  · rfl

/-- C4 (amended): `GetTank` fails with the InvalidTank error
(`ErrInvalidTank`, an InvalidInput-kind error) when the id is empty, and
with the repository's NotFound error when no tank with that id exists; no
other error kind arises on these inputs. -/
theorem getTank_error_kinds (s : SysState) (id : String) :
    (id = "" → TankServiceImpl.GetTank s id = Except.error Err.invalidTank) ∧
    (id ≠ "" → s.tanks id = none →
      TankServiceImpl.GetTank s id = Except.error Err.repoTankNotFound) := by
  constructor
  · intro h
    simp [TankServiceImpl.GetTank, h]
  · intro h hnone
    simp [TankServiceImpl.GetTank, MemoryTankRepository.GetTank, h, hnone]

/-- Witness for C4 (amended): looking up an id absent from the empty store
fails with the repository NotFound error. -/
theorem getTank_error_kinds_witness :
    TankServiceImpl.GetTank emptyState "ghost" = Except.error Err.repoTankNotFound :=
  (getTank_error_kinds emptyState "ghost").2 (by simp) rfl

/-- C5: `CreateTank` fails with `ErrInvalidTank` exactly when the tank is
absent, its name is empty or its capacity is non-positive; on every valid
input it persists the tank with status forced to `normal`, a non-positive
alert threshold replaced by the default 10.0 (a positive one unchanged) and
`LastUpdated` stamped with the current time, touching nothing else. -/
theorem createTank_validation (s : SysState) (now : Int) (tank? : Option Tank) :
    (TankServiceImpl.CreateTank s now tank? = Except.error Err.invalidTank ↔
      tank? = none ∨ ∃ t, tank? = some t ∧ (t.name = "" ∨ t.capacity ≤ 0)) ∧
    (∀ t, tank? = some t → t.name ≠ "" → 0 < t.capacity →
      ∃ s', TankServiceImpl.CreateTank s now tank? = Except.ok s' ∧
        s'.tanks t.id = some { t with
          status := "normal",
          alertThreshold := if t.alertThreshold ≤ 0 then 10 else t.alertThreshold,
          lastUpdated := now } ∧
        (∀ i, i ≠ t.id → s'.tanks i = s.tanks i) ∧
        s'.measurements = s.measurements ∧ s'.alerts = s.alerts) := by
  constructor
  · cases tank? with
    | none => simp [TankServiceImpl.CreateTank]
    | some t =>
      by_cases hval : t.name = "" ∨ t.capacity ≤ 0
      · simp only [TankServiceImpl.CreateTank, if_pos hval]
        simp [hval]
      · simp only [TankServiceImpl.CreateTank, if_neg hval]
        simp [hval]
  · rintro t rfl hname hcap
    have hval : ¬(t.name = "" ∨ t.capacity ≤ 0) := by
      push_neg
      exact ⟨hname, hcap⟩
    simp only [TankServiceImpl.CreateTank, if_neg hval]
    refine ⟨_, rfl, ?_, ?_, rfl, rfl⟩
    · unfold MemoryTankRepository.SaveTank
      by_cases hthr : t.alertThreshold ≤ 0 <;>
        by_cases hn : now = 0 <;>
          simp [hthr, hn]
    · intro i hi
      unfold MemoryTankRepository.SaveTank
      by_cases hthr : t.alertThreshold ≤ 0 <;>
        by_cases hn : now = 0 <;>
          simp [hthr, hn, hi]

/-- Witness for C5: creating `freshTank` (threshold 0) stores it with status
`normal`, threshold defaulted to 10 and `LastUpdated` = 9. -/
theorem createTank_validation_witness :
    ∃ s', TankServiceImpl.CreateTank emptyState 9 (some freshTank) = Except.ok s' ∧
      s'.tanks freshTank.id = some { freshTank with
        status := "normal",
        alertThreshold := if freshTank.alertThreshold ≤ 0 then 10 else freshTank.alertThreshold,
        lastUpdated := 9 } ∧
      (∀ i, i ≠ freshTank.id → s'.tanks i = emptyState.tanks i) ∧
      s'.measurements = emptyState.measurements ∧ s'.alerts = emptyState.alerts :=
  (createTank_validation emptyState 9 (some freshTank)).2 freshTank rfl
    (by simp [freshTank]) (by norm_num [freshTank])

/-- C7: `DeleteTank` fails with `ErrInvalidTank` on an empty id and with the
repository NotFound error when the tank does not exist; on success it
removes exactly that tank, leaves every other tank, the whole measurement
history and the notifier record untouched, and a subsequent `GetTank` on the
id fails with the NotFound error. -/
theorem deleteTank_frame (s : SysState) (id : String) :
    (id = "" → TankServiceImpl.DeleteTank s id = Except.error Err.invalidTank) ∧
    (id ≠ "" → s.tanks id = none →
      TankServiceImpl.DeleteTank s id = Except.error Err.repoTankNotFound) ∧
    (∀ t, id ≠ "" → s.tanks id = some t →
      ∃ s', TankServiceImpl.DeleteTank s id = Except.ok s' ∧
        s'.tanks id = none ∧
        (∀ i, i ≠ id → s'.tanks i = s.tanks i) ∧
        s'.measurements = s.measurements ∧
        s'.alerts = s.alerts ∧
        TankServiceImpl.GetTank s' id = Except.error Err.repoTankNotFound) := by
  refine ⟨fun h => ?_, fun h hnone => ?_, fun t h hsome => ?_⟩
  · simp [TankServiceImpl.DeleteTank, h]
  · simp [TankServiceImpl.DeleteTank, MemoryTankRepository.GetTank, h, hnone]
  · simp only [TankServiceImpl.DeleteTank, MemoryTankRepository.GetTank,
      MemoryTankRepository.DeleteTank, if_neg h, hsome]
    refine ⟨_, rfl, by simp, fun i hi => by simp [hi], rfl, rfl, ?_⟩
    simp [TankServiceImpl.GetTank, MemoryTankRepository.GetTank, h]

/-- Witness for C7: deleting `tankA` from `stateWithTank` removes it and a
subsequent lookup fails with NotFound. -/
theorem deleteTank_frame_witness :
    ∃ s', TankServiceImpl.DeleteTank stateWithTank "t1" = Except.ok s' ∧
      s'.tanks "t1" = none ∧
      (∀ i, i ≠ "t1" → s'.tanks i = stateWithTank.tanks i) ∧
      s'.measurements = stateWithTank.measurements ∧
      s'.alerts = stateWithTank.alerts ∧
      TankServiceImpl.GetTank s' "t1" = Except.error Err.repoTankNotFound :=
  (deleteTank_frame stateWithTank "t1").2.2 tankA (by simp) (by simp [stateWithTank])

/-! Helper lemmas about the measurement repository's sorting. -/

lemma sortByTimestampDesc_perm (l : List Measurement) :
    List.Perm (sortByTimestampDesc l) l :=
  List.perm_insertionSort recentFirst l

lemma sortByTimestampDesc_sorted (l : List Measurement) :
    sortedDescTS (sortByTimestampDesc l) :=
  List.sorted_insertionSort recentFirst l

lemma saveMeasurement_sorted (s : SysState) (now : Int) (m : Measurement)
    (h : ∀ i, sortedDescTS (s.measurements i)) :
    ∀ i, sortedDescTS ((MemoryMeasurementRepository.SaveMeasurement s now m).measurements i) := by
  intro i
  dsimp only [MemoryMeasurementRepository.SaveMeasurement]
  split <;> split <;> first | exact sortByTimestampDesc_sorted _ | exact h i

lemma runSaves_sorted (now : Int) (ms : List Measurement) (i : String) :
    sortedDescTS ((runSaves now ms).measurements i) := by
  suffices h : ∀ s : SysState, (∀ j, sortedDescTS (s.measurements j)) →
      ∀ j, sortedDescTS
        ((ms.foldl (fun s m => MemoryMeasurementRepository.SaveMeasurement s now m) s).measurements j) by
    exact h emptyState (fun _ => List.Pairwise.nil) i
  induction ms with
  | nil => exact fun s hs j => hs j
  | cons m rest ih =>
    intro s hs j
    exact ih _ (saveMeasurement_sorted s now m hs) j

/-- C9: after any sequence of `SaveMeasurement` calls from the fresh store,
every per-tank history is ordered most-recent-first, and
`GetMeasurementsByTankID` returns a most-recent-first prefix of that
history: at most `limit` measurements when `limit > 0`, the entire history
when `limit ≤ 0`. -/
theorem measurement_history_recency (now : Int) (ms : List Measurement)
    (tankID : String) (limit : Int) :
    sortedDescTS ((runSaves now ms).measurements tankID) ∧
    (tankID ≠ "" →
      ∃ r, MemoryMeasurementRepository.GetMeasurementsByTankID (runSaves now ms) tankID limit =
          Except.ok r ∧
        sortedDescTS r ∧
        (∃ k, r = ((runSaves now ms).measurements tankID).take k) ∧
        (0 < limit → (r.length : Int) ≤ limit) ∧
        (limit ≤ 0 → r = (runSaves now ms).measurements tankID)) := by
  refine ⟨runSaves_sorted now ms tankID, fun h => ?_⟩
  simp only [MemoryMeasurementRepository.GetMeasurementsByTankID, if_neg h]
  by_cases hl : 0 < limit ∧ limit < (((runSaves now ms).measurements tankID).length : Int)
  · rw [if_pos hl]
    refine ⟨_, rfl, ?_, ⟨limit.toNat, rfl⟩, ?_, ?_⟩
    · exact List.Pairwise.sublist (List.take_sublist _ _) (runSaves_sorted now ms tankID)
    · intro hpos
      rw [List.length_take]
      have h2 : (limit.toNat : Int) = limit := Int.toNat_of_nonneg hpos.le
      omega
    · intro hle
      exact absurd hl.1 (not_lt.mpr hle)
  · rw [if_neg hl]
    refine ⟨_, rfl, runSaves_sorted now ms tankID,
      ⟨((runSaves now ms).measurements tankID).length, (List.take_length _).symm⟩,
      ?_, fun _ => rfl⟩
    intro hpos
    rcases not_and_or.mp hl with h1 | h2
    · exact absurd hpos h1
    · have h3 := not_lt.mp h2
      omega

/-- Witness for C9: one saved measurement, retrieved with limit 5. -/
theorem measurement_history_recency_witness :
    ∃ r, MemoryMeasurementRepository.GetMeasurementsByTankID (runSaves 0 [measOld]) "tb" 5 =
        Except.ok r ∧
      sortedDescTS r ∧
      (∃ k, r = ((runSaves 0 [measOld]).measurements "tb").take k) ∧
      ((0:Int) < 5 → (r.length : Int) ≤ 5) ∧
      ((5:Int) ≤ 0 → r = (runSaves 0 [measOld]).measurements "tb") :=
  (measurement_history_recency 0 [measOld] "tb" 5).2 (by simp)

/-- C1 counterexample: `CreateTank` succeeds on `lowTank` (fill percentage 5,
threshold 10), and the subsequent successful `GetTank` — the tank having no
measurements — returns status `normal` although the fill percentage is at or
below the threshold, so the claimed "critical iff percentage ≤ threshold,
including for a tank that has no measurements" fails. -/
theorem getTank_stale_status_counterexample :
    TankServiceImpl.CreateTank emptyState 5 (some lowTank) = Except.ok createdLowState ∧
    TankServiceImpl.GetTank createdLowState "tl" = Except.ok staleLow ∧
    staleLow.getLevelPercentage ≤ staleLow.alertThreshold ∧
    staleLow.status ≠ "critical" := by
  refine ⟨?_, ?_, ?_, ?_⟩
  · simp [TankServiceImpl.CreateTank, MemoryTankRepository.SaveTank,
      lowTank, staleLow, emptyState, createdLowState]
  · simp [TankServiceImpl.GetTank, MemoryTankRepository.GetTank,
      MemoryMeasurementRepository.GetLastMeasurement, createdLowState]
  · norm_num [staleLow, lowTank, Tank.getLevelPercentage]
  · simp [staleLow, lowTank]

/-- C1 (amended): a successful `GetTank` recomputes the three-tier status
only when the tank has at least one stored measurement (whose values are
overlaid first); for a tank with no measurements the stored snapshot is
returned unchanged — in particular, right after `CreateTank` its status is
the stored `normal` whatever the fill percentage. -/
theorem getTank_projection_status (s : SysState) (id : String) (t : Tank)
    (h : TankServiceImpl.GetTank s id = Except.ok t) :
    (s.measurements id ≠ [] →
      ((t.status = "critical" ↔ t.getLevelPercentage ≤ t.alertThreshold) ∧
       (t.status = "warning" ↔
         (t.alertThreshold < t.getLevelPercentage ∧
          t.getLevelPercentage ≤ t.alertThreshold * 2)) ∧
       (t.status = "normal" ↔
         (t.alertThreshold < t.getLevelPercentage ∧
          t.alertThreshold * 2 < t.getLevelPercentage)))) ∧
    (s.measurements id = [] → s.tanks id = some t) := by
  by_cases hid : id = ""
  · rw [hid] at h
    simp [TankServiceImpl.GetTank] at h
  · cases htank : s.tanks id with
    | none =>
      simp [TankServiceImpl.GetTank, MemoryTankRepository.GetTank, hid, htank] at h
    | some t0 =>
      cases hms : s.measurements id with
      | nil =>
        simp [TankServiceImpl.GetTank, MemoryTankRepository.GetTank,
          MemoryMeasurementRepository.GetLastMeasurement, hid, htank, hms] at h
        subst h
        exact ⟨fun hne => absurd rfl hne, fun _ => rfl⟩
      | cons m0 rest =>
        simp [TankServiceImpl.GetTank, MemoryTankRepository.GetTank,
          MemoryMeasurementRepository.GetLastMeasurement, hid, htank, hms] at h
        subst h
        exact ⟨fun _ => updateStatus_self_iff _,
          fun hnil => absurd hnil (List.cons_ne_nil m0 rest)⟩

/-- Witness for C1 (amended): `stateWithMeas` has a measurement for "t1", so
the tank `GetTank` returns satisfies the three-tier status
characterisation. -/
theorem getTank_projection_status_witness :
    (projTank.status = "critical" ↔ projTank.getLevelPercentage ≤ projTank.alertThreshold) ∧
    (projTank.status = "warning" ↔
      (projTank.alertThreshold < projTank.getLevelPercentage ∧
       projTank.getLevelPercentage ≤ projTank.alertThreshold * 2)) ∧
    (projTank.status = "normal" ↔
      (projTank.alertThreshold < projTank.getLevelPercentage ∧
       projTank.alertThreshold * 2 < projTank.getLevelPercentage)) :=
  (getTank_projection_status stateWithMeas "t1" projTank
    (by
      simp [TankServiceImpl.GetTank, MemoryTankRepository.GetTank,
        MemoryMeasurementRepository.GetLastMeasurement, stateWithMeas, tankA, meas300,
        projTank, Tank.updateStatus, Tank.getLevelPercentage]
      all_goals norm_num)).1
    (by simp [stateWithMeas])

/-! Helper lemmas for `AddMeasurement` / `MonitorTank`: the timestamp
defaulting and the persisted tank snapshot only touch the fields the source
assigns. -/

lemma measurementStamped_tankID (now : Int) (m : Measurement) :
    (measurementStamped now m).tankID = m.tankID := by
  unfold measurementStamped
  split <;> rfl

lemma measurementStamped_level (now : Int) (m : Measurement) :
    (measurementStamped now m).level = m.level := by
  unfold measurementStamped
  split <;> rfl

lemma measurementStamped_idem (now : Int) (m : Measurement) :
    measurementStamped now (measurementStamped now m) = measurementStamped now m := by
  unfold measurementStamped
  by_cases h : m.timestamp = 0
  · rw [if_pos h]
    split <;> rfl
  · rw [if_neg h, if_neg h]

lemma tankAfterMeasurement_id (m : Measurement) (t : Tank) :
    (tankAfterMeasurement m t).id = t.id := by
  unfold tankAfterMeasurement
  rw [updateStatus_id]

lemma tankAfterMeasurement_capacity (m : Measurement) (t : Tank) :
    (tankAfterMeasurement m t).capacity = t.capacity := by
  unfold tankAfterMeasurement
  rw [updateStatus_capacity]

lemma tankAfterMeasurement_currentLevel (m : Measurement) (t : Tank) :
    (tankAfterMeasurement m t).currentLevel = m.level := by
  unfold tankAfterMeasurement
  rw [updateStatus_currentLevel]

lemma tankAfterMeasurement_alertThreshold (m : Measurement) (t : Tank) :
    (tankAfterMeasurement m t).alertThreshold = t.alertThreshold := by
  unfold tankAfterMeasurement
  rw [updateStatus_alertThreshold]

lemma tankAfterMeasurement_lastUpdated (m : Measurement) (t : Tank) :
    (tankAfterMeasurement m t).lastUpdated = m.timestamp := by
  unfold tankAfterMeasurement
  rw [updateStatus_lastUpdated]

lemma tank_set_lastUpdated_self (t : Tank) (v : Int) (h : t.lastUpdated = v) :
    ({ t with lastUpdated := v } : Tank) = t := by
  cases t
  subst h
  rfl

/-- The repository's re-defaulting of a zero `LastUpdated` inside
`AddMeasurement`'s `UpdateTank` call never changes the stored value: the
snapshot's `LastUpdated` is the stamped timestamp, which is zero only when
`now` itself is zero. -/
lemma storedTankAfterMeasurement_eq (now : Int) (m : Measurement) (t : Tank) :
    storedTankAfterMeasurement now m t = tankAfterMeasurement (measurementStamped now m) t := by
  simp only [storedTankAfterMeasurement]
  split
  · rename_i h
    rw [tankAfterMeasurement_lastUpdated] at h
    have hnow : now = 0 := by
      unfold measurementStamped at h
      split at h
      · exact h
      · rename_i hne
        exact absurd h hne
    subst hnow
    exact tank_set_lastUpdated_self _ 0
      (by rw [tankAfterMeasurement_lastUpdated]; exact h)
  · rfl

lemma storedTankAfterMeasurement_id (now : Int) (m : Measurement) (t : Tank) :
    (storedTankAfterMeasurement now m t).id = t.id := by
  rw [storedTankAfterMeasurement_eq, tankAfterMeasurement_id]

lemma storedTankAfterMeasurement_capacity (now : Int) (m : Measurement) (t : Tank) :
    (storedTankAfterMeasurement now m t).capacity = t.capacity := by
  rw [storedTankAfterMeasurement_eq, tankAfterMeasurement_capacity]

lemma storedTankAfterMeasurement_currentLevel (now : Int) (m : Measurement) (t : Tank) :
    (storedTankAfterMeasurement now m t).currentLevel = m.level := by
  rw [storedTankAfterMeasurement_eq, tankAfterMeasurement_currentLevel, measurementStamped_level]

lemma storedTankAfterMeasurement_alertThreshold (now : Int) (m : Measurement) (t : Tank) :
    (storedTankAfterMeasurement now m t).alertThreshold = t.alertThreshold := by
  rw [storedTankAfterMeasurement_eq, tankAfterMeasurement_alertThreshold]

lemma saveMeasurement_tanks (s : SysState) (now : Int) (mm : Measurement) :
    (MemoryMeasurementRepository.SaveMeasurement s now mm).tanks = s.tanks := rfl

lemma saveMeasurement_alerts (s : SysState) (now : Int) (mm : Measurement) :
    (MemoryMeasurementRepository.SaveMeasurement s now mm).alerts = s.alerts := rfl

lemma saveMeasurement_measurements (s : SysState) (now : Int) (mm : Measurement) :
    (MemoryMeasurementRepository.SaveMeasurement s now mm).measurements = fun id =>
      if id = (measurementStamped now mm).tankID
      then sortByTimestampDesc
        (s.measurements (measurementStamped now mm).tankID ++ [measurementStamped now mm])
      else s.measurements id := rfl

lemma updateTank_of_some (s : SysState) (now : Int) (tk : Tank) (t0 : Tank)
    (h : s.tanks tk.id = some t0) :
    MemoryTankRepository.UpdateTank s now tk = Except.ok
      { s with tanks := fun id =>
        if id = (if tk.lastUpdated = 0 then { tk with lastUpdated := now } else tk).id
        then some (if tk.lastUpdated = 0 then { tk with lastUpdated := now } else tk)
        else s.tanks id } := by
  unfold MemoryTankRepository.UpdateTank
  rw [h]

lemma postWriteState_eq (s : SysState) (now : Int) (m : Measurement) (t : Tank)
    (h3 : s.tanks m.tankID = some t) (h4 : t.id = m.tankID) :
    postWriteState s now m t =
      { MemoryMeasurementRepository.SaveMeasurement s now (measurementStamped now m) with
        tanks := fun id =>
          if id = (storedTankAfterMeasurement now m t).id
          then some (storedTankAfterMeasurement now m t)
          else s.tanks id } := by
  have hscrut : (MemoryMeasurementRepository.SaveMeasurement s now
      (measurementStamped now m)).tanks (tankAfterMeasurement (measurementStamped now m) t).id =
      some t := by
    rw [saveMeasurement_tanks, tankAfterMeasurement_id, h4]
    exact h3
  simp only [postWriteState]
  rw [updateTank_of_some _ now _ t hscrut]
  rfl

lemma postWriteState_alerts (s : SysState) (now : Int) (m : Measurement) (t : Tank)
    (h3 : s.tanks m.tankID = some t) (h4 : t.id = m.tankID) :
    (postWriteState s now m t).alerts = s.alerts := by
  rw [postWriteState_eq s now m t h3 h4]
  rfl

lemma postWriteState_measurements_key (s : SysState) (now : Int) (m : Measurement) (t : Tank)
    (h3 : s.tanks m.tankID = some t) (h4 : t.id = m.tankID) :
    (postWriteState s now m t).measurements m.tankID =
      sortByTimestampDesc (s.measurements m.tankID ++ [measurementStamped now m]) := by
  rw [postWriteState_eq s now m t h3 h4]
  show (MemoryMeasurementRepository.SaveMeasurement s now
    (measurementStamped now m)).measurements m.tankID =
    sortByTimestampDesc (s.measurements m.tankID ++ [measurementStamped now m])
  rw [saveMeasurement_measurements]
  simp only [measurementStamped_idem]
  rw [measurementStamped_tankID]
  rw [if_pos rfl]

lemma postWriteState_tanks_key (s : SysState) (now : Int) (m : Measurement) (t : Tank)
    (h3 : s.tanks m.tankID = some t) (h4 : t.id = m.tankID) :
    (postWriteState s now m t).tanks m.tankID = some (storedTankAfterMeasurement now m t) := by
  rw [postWriteState_eq s now m t h3 h4]
  show (if m.tankID = (storedTankAfterMeasurement now m t).id
      then some (storedTankAfterMeasurement now m t)
      else s.tanks m.tankID) = some (storedTankAfterMeasurement now m t)
  rw [storedTankAfterMeasurement_id, h4, if_pos rfl]

/-- Inside a successful `AddMeasurement` run, the call to `MonitorTank`
happens on the state in which both writes — the persisted measurement and
the persisted tank snapshot — are already in place. -/
lemma addMeasurement_run (s : SysState) (now : Int) (nerr : Option Err) (m : Measurement)
    (t : Tank) (h1 : ¬ m.tankID = "") (h2 : ¬ m.level < 0) (h3 : s.tanks m.tankID = some t)
    (h4 : t.id = m.tankID) :
    TankServiceImpl.AddMeasurement s now nerr (some m) =
      TankServiceImpl.MonitorTank (postWriteState s now m t) nerr m.tankID := by
  have hcond : ¬(m.tankID = "" ∨ m.level < 0) := not_or.mpr ⟨h1, h2⟩
  have hscrut : (MemoryMeasurementRepository.SaveMeasurement s now
      (measurementStamped now m)).tanks (tankAfterMeasurement (measurementStamped now m) t).id =
      some t := by
    rw [saveMeasurement_tanks, tankAfterMeasurement_id, h4]
    exact h3
  obtain ⟨s2, hs2⟩ : ∃ s2, MemoryTankRepository.UpdateTank
      (MemoryMeasurementRepository.SaveMeasurement s now (measurementStamped now m)) now
      (tankAfterMeasurement (measurementStamped now m) t) = Except.ok s2 := by
    unfold MemoryTankRepository.UpdateTank
    rw [hscrut]
    exact ⟨_, rfl⟩
  have hmid : (if m.timestamp = 0 then { m with timestamp := now } else m).tankID = m.tankID := by
    split <;> rfl
  have hs2' := hs2
  simp only [measurementStamped, tankAfterMeasurement] at hs2'
  simp only [TankServiceImpl.AddMeasurement, postWriteState]
  rw [if_neg hcond]
  simp only [MemoryTankRepository.GetTank, h3]
  rw [hs2', hs2]
  simp only [hmid]

lemma monitorTank_run (s : SysState) (nerr : Option Err) (id : String) (tr : Tank)
    (h : TankServiceImpl.GetTank s id = Except.ok tr) :
    TankServiceImpl.MonitorTank s nerr id =
      if tr.isLevelCritical then
        ({ s with alerts := s.alerts ++ [(id, criticalAlertMessage tr)] }, nerr)
      else (s, none) := by
  simp only [TankServiceImpl.MonitorTank, h, sendAlert]

lemma getTank_of_tanks_measurements (s : SysState) (id : String) (tk : Tank)
    (m0 : Measurement) (rest : List Measurement) (hid : id ≠ "")
    (htank : s.tanks id = some tk) (hms : s.measurements id = m0 :: rest) :
    TankServiceImpl.GetTank s id = Except.ok (Tank.updateStatus { tk with
      currentLevel := m0.level, temperature := m0.temperature,
      lastUpdated := m0.timestamp }) := by
  simp only [TankServiceImpl.GetTank, MemoryTankRepository.GetTank,
    MemoryMeasurementRepository.GetLastMeasurement, htank, hms, if_neg hid, List.head?_cons]

lemma sortByTimestampDesc_append_ne_nil (l : List Measurement) (m : Measurement) :
    sortByTimestampDesc (l ++ [m]) ≠ [] := by
  intro h
  have hperm := sortByTimestampDesc_perm (l ++ [m])
  rw [h] at hperm
  have hlen := hperm.length_eq
  simp at hlen

/-- When the freshly added measurement carries a strictly newer timestamp
than everything already in the history, the re-sorted slice puts it first. -/
lemma sortByTimestampDesc_head_of_latest (l : List Measurement) (m : Measurement)
    (hmax : ∀ x ∈ l, x.timestamp < m.timestamp) :
    (sortByTimestampDesc (l ++ [m])).head? = some m := by
  have hperm := sortByTimestampDesc_perm (l ++ [m])
  have hsort : List.Sorted recentFirst (sortByTimestampDesc (l ++ [m])) :=
    sortByTimestampDesc_sorted (l ++ [m])
  have hmem : m ∈ sortByTimestampDesc (l ++ [m]) :=
    hperm.mem_iff.mpr (List.mem_append.mpr (Or.inr (List.mem_singleton.mpr rfl)))
  cases hsl : sortByTimestampDesc (l ++ [m]) with
  | nil =>
    rw [hsl] at hmem
    exact absurd hmem (List.not_mem_nil m)
  | cons h0 rest =>
    rw [hsl] at hperm hsort hmem
    have hh0 : h0 ∈ l ++ [m] := hperm.subset (List.mem_cons_self h0 rest)
    rcases List.mem_append.mp hh0 with hh | hh
    · rcases List.mem_cons.mp hmem with heq | hmemrest
      · simp [heq]
      · exfalso
        have hle : m.timestamp ≤ h0.timestamp :=
          List.rel_of_sorted_cons hsort m hmemrest
        exact absurd hle (not_le.mpr (hmax h0 hh))
    · have heq : h0 = m := List.mem_singleton.mp hh
      simp [heq]

/-- C2 (amended): on a valid measurement for an existing tank,
`AddMeasurement` persists the measurement and the tank snapshot (whose
current level is the measurement's level) and only then runs `MonitorTank`
on the post-write state; the notifier is invoked exactly once iff the tank
projected from the most recent measurement (by timestamp) is critical — in
particular, whenever the new measurement's timestamp is strictly the latest,
the alert decision is made on the new fill percentage. -/
theorem addMeasurement_alerting (s : SysState) (now : Int) (m : Measurement) (t : Tank)
    (h1 : m.tankID ≠ "") (h2 : ¬ m.level < 0) (h3 : s.tanks m.tankID = some t)
    (h4 : t.id = m.tankID) :
    ∃ tr,
      TankServiceImpl.AddMeasurement s now none (some m) =
        TankServiceImpl.MonitorTank (postWriteState s now m t) none m.tankID ∧
      (postWriteState s now m t).tanks m.tankID = some (storedTankAfterMeasurement now m t) ∧
      (storedTankAfterMeasurement now m t).currentLevel = m.level ∧
      (postWriteState s now m t).measurements m.tankID =
        sortByTimestampDesc (s.measurements m.tankID ++ [measurementStamped now m]) ∧
      measurementStamped now m ∈ (postWriteState s now m t).measurements m.tankID ∧
      TankServiceImpl.GetTank (postWriteState s now m t) m.tankID = Except.ok tr ∧
      (TankServiceImpl.AddMeasurement s now none (some m)).1.alerts =
        s.alerts ++ (if tr.isLevelCritical then [(m.tankID, criticalAlertMessage tr)] else []) ∧
      (TankServiceImpl.AddMeasurement s now none (some m)).2 = none ∧
      ((∀ x ∈ s.measurements m.tankID, x.timestamp < (measurementStamped now m).timestamp) →
        tr.currentLevel = m.level ∧ tr.capacity = t.capacity ∧
        tr.alertThreshold = t.alertThreshold) := by
  have hrun := addMeasurement_run s now none m t h1 h2 h3 h4
  have hmkey := postWriteState_measurements_key s now m t h3 h4
  have htkey := postWriteState_tanks_key s now m t h3 h4
  have halerts := postWriteState_alerts s now m t h3 h4
  obtain ⟨m0, rest, hcons⟩ : ∃ m0 rest,
      sortByTimestampDesc (s.measurements m.tankID ++ [measurementStamped now m]) =
        m0 :: rest := by
    rcases hl : sortByTimestampDesc (s.measurements m.tankID ++ [measurementStamped now m]) with
      _ | ⟨m0, rest⟩
    · exact absurd hl (sortByTimestampDesc_append_ne_nil _ _)
    · exact ⟨m0, rest, rfl⟩
  have hms2 : (postWriteState s now m t).measurements m.tankID = m0 :: rest := by
    rw [hmkey, hcons]
  have hget := getTank_of_tanks_measurements (postWriteState s now m t) m.tankID
    (storedTankAfterMeasurement now m t) m0 rest h1 htkey hms2
  refine ⟨_, hrun, htkey, storedTankAfterMeasurement_currentLevel now m t, hmkey, ?_,
    hget, ?_, ?_, ?_⟩
  · rw [hmkey]
    exact (sortByTimestampDesc_perm _).mem_iff.mpr
      (List.mem_append.mpr (Or.inr (List.mem_singleton.mpr rfl)))
  · rw [hrun, monitorTank_run _ none _ _ hget]
    split <;> rename_i hc <;> simp [hc, halerts]
  · rw [hrun, monitorTank_run _ none _ _ hget]
    split <;> rfl
  · intro hmax
    have hhead : (sortByTimestampDesc
        (s.measurements m.tankID ++ [measurementStamped now m])).head? =
        some (measurementStamped now m) :=
      sortByTimestampDesc_head_of_latest _ _ hmax
    rw [hcons] at hhead
    have hm0 : m0 = measurementStamped now m := by simpa using hhead
    subst hm0
    refine ⟨?_, ?_, ?_⟩
    · rw [updateStatus_currentLevel]
      show (measurementStamped now m).level = m.level
      exact measurementStamped_level now m
    · rw [updateStatus_capacity]
      show (storedTankAfterMeasurement now m t).capacity = t.capacity
      exact storedTankAfterMeasurement_capacity now m t
    · rw [updateStatus_alertThreshold]
      show (storedTankAfterMeasurement now m t).alertThreshold = t.alertThreshold
      exact storedTankAfterMeasurement_alertThreshold now m t

/-- C2 counterexample: `measBack` is a valid measurement (level 5 ≥ 0,
existing tank) whose new fill percentage (5% of capacity 100) is at or below
the threshold 10, yet `AddMeasurement` ends with zero notifier invocations,
because the back-dated timestamp (5, older than the stored measurement's 10)
makes `MonitorTank` project the tank from the other measurement. -/
theorem addMeasurement_backdated_counterexample :
    (0:ℚ) ≤ measBack.level ∧ measBack.tankID ≠ "" ∧
    backState.tanks measBack.tankID = some backTank ∧
    measBack.level / backTank.capacity * 100 ≤ backTank.alertThreshold ∧
    (TankServiceImpl.AddMeasurement backState 99 none (some measBack)).1.alerts = [] ∧
    (TankServiceImpl.AddMeasurement backState 99 none (some measBack)).2 = none := by
  have h1 : ¬ measBack.tankID = "" := by simp [measBack]
  have h2 : ¬ measBack.level < 0 := by norm_num [measBack]
  have h3 : backState.tanks measBack.tankID = some backTank := by simp [backState, measBack]
  have h4 : backTank.id = measBack.tankID := rfl
  have hrun := addMeasurement_run backState 99 none measBack backTank h1 h2 h3 h4
  have hmkey := postWriteState_measurements_key backState 99 measBack backTank h3 h4
  have htkey := postWriteState_tanks_key backState 99 measBack backTank h3 h4
  have halerts := postWriteState_alerts backState 99 measBack backTank h3 h4
  have hstamp : measurementStamped 99 measBack = measBack := by
    simp [measurementStamped, measBack]
  have hsorted : sortByTimestampDesc
      (backState.measurements measBack.tankID ++ [measurementStamped 99 measBack]) =
      [measOld, measBack] := by
    rw [hstamp]
    simp [backState, measBack, measOld, sortByTimestampDesc, List.insertionSort,
      List.orderedInsert, recentFirst]
  have hms2 : (postWriteState backState 99 measBack backTank).measurements measBack.tankID =
      measOld :: [measBack] := by
    rw [hmkey]
    exact hsorted
  have hget := getTank_of_tanks_measurements _ measBack.tankID
    (storedTankAfterMeasurement 99 measBack backTank) measOld [measBack] h1 htkey hms2
  have hnotcrit : (Tank.updateStatus { storedTankAfterMeasurement 99 measBack backTank with
      currentLevel := measOld.level, temperature := measOld.temperature,
      lastUpdated := measOld.timestamp }).isLevelCritical = false := by
    have hcap : ({ storedTankAfterMeasurement 99 measBack backTank with
        currentLevel := measOld.level, temperature := measOld.temperature,
        lastUpdated := measOld.timestamp } : Tank).capacity = 100 := by
      show (storedTankAfterMeasurement 99 measBack backTank).capacity = 100
      rw [storedTankAfterMeasurement_capacity]
      rfl
    have hthr : ({ storedTankAfterMeasurement 99 measBack backTank with
        currentLevel := measOld.level, temperature := measOld.temperature,
        lastUpdated := measOld.timestamp } : Tank).alertThreshold = 10 := by
      show (storedTankAfterMeasurement 99 measBack backTank).alertThreshold = 10
      rw [storedTankAfterMeasurement_alertThreshold]
      rfl
    have hlev : ({ storedTankAfterMeasurement 99 measBack backTank with
        currentLevel := measOld.level, temperature := measOld.temperature,
        lastUpdated := measOld.timestamp } : Tank).currentLevel = 50 := rfl
    unfold Tank.isLevelCritical
    rw [updateStatus_getLevelPercentage, updateStatus_alertThreshold]
    unfold Tank.getLevelPercentage
    rw [hcap, hthr, hlev]
    norm_num
  refine ⟨by norm_num [measBack], h1, h3, by norm_num [measBack, backTank], ?_, ?_⟩
  · rw [hrun, monitorTank_run _ none _ _ hget, hnotcrit]
    simp [halerts]
    rfl
  · rw [hrun, monitorTank_run _ none _ _ hget, hnotcrit]
    simp

/-- Witness for C2 (amended): ingesting `meas300` (level 300, the only
measurement) into `stateWithTank`. -/
theorem addMeasurement_alerting_witness :
    ∃ tr,
      TankServiceImpl.AddMeasurement stateWithTank 9 none (some meas300) =
        TankServiceImpl.MonitorTank (postWriteState stateWithTank 9 meas300 tankA) none
          meas300.tankID ∧
      (postWriteState stateWithTank 9 meas300 tankA).tanks meas300.tankID =
        some (storedTankAfterMeasurement 9 meas300 tankA) ∧
      (storedTankAfterMeasurement 9 meas300 tankA).currentLevel = meas300.level ∧
      (postWriteState stateWithTank 9 meas300 tankA).measurements meas300.tankID =
        sortByTimestampDesc
          (stateWithTank.measurements meas300.tankID ++ [measurementStamped 9 meas300]) ∧
      measurementStamped 9 meas300 ∈
        (postWriteState stateWithTank 9 meas300 tankA).measurements meas300.tankID ∧
      TankServiceImpl.GetTank (postWriteState stateWithTank 9 meas300 tankA) meas300.tankID =
        Except.ok tr ∧
      (TankServiceImpl.AddMeasurement stateWithTank 9 none (some meas300)).1.alerts =
        stateWithTank.alerts ++
          (if tr.isLevelCritical then [(meas300.tankID, criticalAlertMessage tr)] else []) ∧
      (TankServiceImpl.AddMeasurement stateWithTank 9 none (some meas300)).2 = none ∧
      ((∀ x ∈ stateWithTank.measurements meas300.tankID,
          x.timestamp < (measurementStamped 9 meas300).timestamp) →
        tr.currentLevel = meas300.level ∧ tr.capacity = tankA.capacity ∧
        tr.alertThreshold = tankA.alertThreshold) :=
  addMeasurement_alerting stateWithTank 9 meas300 tankA (by simp [meas300])
    (by norm_num [meas300]) (by simp [stateWithTank, meas300]) rfl

/-- C10: when the projected tank is critical and the notifier fails,
`AddMeasurement` returns the notifier's error, yet the measurement and the
updated tank snapshot remain persisted in the final state — the preceding
writes are not undone. -/
theorem addMeasurement_notifier_failure (s : SysState) (now : Int) (m : Measurement)
    (t : Tank) (e : Err) (tr : Tank)
    (h1 : m.tankID ≠ "") (h2 : ¬ m.level < 0) (h3 : s.tanks m.tankID = some t)
    (h4 : t.id = m.tankID)
    (htr : TankServiceImpl.GetTank (postWriteState s now m t) m.tankID = Except.ok tr)
    (hcrit : tr.isLevelCritical = true) :
    (TankServiceImpl.AddMeasurement s now (some e) (some m)).2 = some e ∧
    (TankServiceImpl.AddMeasurement s now (some e) (some m)).1.tanks m.tankID =
      some (storedTankAfterMeasurement now m t) ∧
    (TankServiceImpl.AddMeasurement s now (some e) (some m)).1.measurements m.tankID =
      sortByTimestampDesc (s.measurements m.tankID ++ [measurementStamped now m]) ∧
    measurementStamped now m ∈
      (TankServiceImpl.AddMeasurement s now (some e) (some m)).1.measurements m.tankID := by
  have hrun := addMeasurement_run s now (some e) m t h1 h2 h3 h4
  have hmon := monitorTank_run (postWriteState s now m t) (some e) m.tankID tr htr
  rw [hrun, hmon, hcrit]
  rw [if_pos rfl]
  refine ⟨rfl, ?_, ?_, ?_⟩
  · show (postWriteState s now m t).tanks m.tankID = some (storedTankAfterMeasurement now m t)
    exact postWriteState_tanks_key s now m t h3 h4
  · show (postWriteState s now m t).measurements m.tankID =
      sortByTimestampDesc (s.measurements m.tankID ++ [measurementStamped now m])
    exact postWriteState_measurements_key s now m t h3 h4
  · show measurementStamped now m ∈ (postWriteState s now m t).measurements m.tankID
    rw [postWriteState_measurements_key s now m t h3 h4]
    exact (sortByTimestampDesc_perm _).mem_iff.mpr
      (List.mem_append.mpr (Or.inr (List.mem_singleton.mpr rfl)))

/-- Witness for C10: ingesting `measCrit` (driving `tankC` to 5%, critical)
with a notifier that fails with `alertFailed`. -/
theorem addMeasurement_notifier_failure_witness :
    (TankServiceImpl.AddMeasurement critState 7 (some Err.alertFailed) (some measCrit)).2 =
      some Err.alertFailed ∧
    (TankServiceImpl.AddMeasurement critState 7 (some Err.alertFailed)
      (some measCrit)).1.tanks measCrit.tankID =
      some (storedTankAfterMeasurement 7 measCrit tankC) ∧
    (TankServiceImpl.AddMeasurement critState 7 (some Err.alertFailed)
      (some measCrit)).1.measurements measCrit.tankID =
      sortByTimestampDesc
        (critState.measurements measCrit.tankID ++ [measurementStamped 7 measCrit]) ∧
    measurementStamped 7 measCrit ∈
      (TankServiceImpl.AddMeasurement critState 7 (some Err.alertFailed)
        (some measCrit)).1.measurements measCrit.tankID :=
  addMeasurement_notifier_failure critState 7 measCrit tankC Err.alertFailed trCrit
    (by simp [measCrit]) (by norm_num [measCrit]) (by simp [critState, measCrit]) rfl
    (by
      have h3 : critState.tanks measCrit.tankID = some tankC := by simp [critState, measCrit]
      have h4 : tankC.id = measCrit.tankID := rfl
      have htkey := postWriteState_tanks_key critState 7 measCrit tankC h3 h4
      have hmkey := postWriteState_measurements_key critState 7 measCrit tankC h3 h4
      have hstamp : measurementStamped 7 measCrit = measCrit := by
        simp [measurementStamped, measCrit]
      have hms2 : (postWriteState critState 7 measCrit tankC).measurements measCrit.tankID =
          measCrit :: [] := by
        rw [hmkey, hstamp]
        simp [critState, measCrit, sortByTimestampDesc, List.insertionSort,
          List.orderedInsert]
      have hget := getTank_of_tanks_measurements _ measCrit.tankID
        (storedTankAfterMeasurement 7 measCrit tankC) measCrit [] (by simp [measCrit])
        htkey hms2
      rw [hget]
      simp [storedTankAfterMeasurement, tankAfterMeasurement, measurementStamped,
        Tank.updateStatus, Tank.getLevelPercentage, tankC, measCrit, trCrit]
      all_goals norm_num)
    (by
      simp [Tank.isLevelCritical, Tank.getLevelPercentage, trCrit, tankC]
      norm_num)

end MonitorTanques
